import Mathlib

/-!
Shallow embedding of `src/heif_encoder_x265.cc` (libheif's x265 HEVC encoder
plugin adapter) and verification of its specification.

The adapter wraps the external x265 library.  External library behaviour is
modelled by oracle arguments: every call to `x265_encoder_encode` is answered
by an `EncodeResp` (the `int` result together with the NAL batch written
through the out-parameters), and memory beyond a NAL payload's bounds is an
unknown `ghost` byte function.  C `int` values are modelled as `Int`, the
`uint32_t` fields as `Nat`, and byte values as `Nat` (0..255 in practice).
-/

set_option autoImplicit false

namespace X265Plugin

/-! ### Host API model (`heif.h`): error codes -/

/-- Error codes of `enum heif_error_code` in `heif.h` (host plugin API). -/
inductive heif_error_code where
  | Ok
  | Input_does_not_exist
  | Invalid_input
  | Unsupported_filetype
  | Unsupported_feature
  | Usage_error
  | Memory_allocation_error
  | Decoder_plugin_error
  | Encoder_plugin_error
deriving DecidableEq, Repr

/-- Suberror codes of `enum heif_suberror_code` in `heif.h` (abridged to the
constants relevant to the encoder plugin surface). -/
inductive heif_suberror_code where
  | Unspecified
  | Unsupported_codec
  | Unsupported_bit_depth
  | Encoder_setup_failure
  | Encoder_encoding
deriving DecidableEq, Repr

/-- `struct heif_error`: code, subcode, and a message string. -/
structure heif_error where
  code : heif_error_code
  subcode : heif_suberror_code
  message : String
deriving DecidableEq, Repr

/-- `static const char kSuccess[] = "Success";` -/
def kSuccess : String := "Success"

/-- The error value `{ heif_error_Ok, heif_suberror_Unspecified, kSuccess }`
constructed on every return path of the adapter. -/
def errSuccess : heif_error := ⟨.Ok, .Unspecified, kSuccess⟩

/-! ### Wrapped library model (`x265.h`) -/

/-- `X265_LOG_NONE` from `x265.h`. -/
def X265_LOG_NONE : Int := -1

/-- One `x265_nal`: its `payload` bytes and, since the C code may read past
the payload's end, a `ghost` function giving the (unknown) bytes of the
surrounding memory.  `sizeBytes` is the `uint32_t sizeBytes` field; for NALs
actually produced by x265 it equals `payload.length`. -/
structure Nal where
  payload : List Nat
  sizeBytes : Nat
  ghost : Nat → Nat

instance : Inhabited Nal := ⟨⟨[], 0, fun _ => 0⟩⟩

/-- A NAL is well-formed when its reported size matches its payload. -/
def Nal.wf (n : Nal) : Prop := n.sizeBytes = n.payload.length

/-- The byte the C code reads at offset `i` from the payload base pointer:
inside the payload it is the payload byte, beyond it the unknown memory. -/
def nalByte (n : Nal) (i : Nat) : Nat :=
  if h : i < n.payload.length then n.payload.get ⟨i, h⟩ else n.ghost i

/-- Oracle response of one `x265_encoder_encode` call: the returned `int` and
the NAL batch written through `&encoder->nals` / `&encoder->num_nals`. -/
structure EncodeResp where
  result : Int
  nals : List Nal

/-- The fields of `x265_param` that the adapter reads or writes.
`rc_rfConstant` models `param->rc.rfConstant`; the adapter only ever stores
integer-valued quantities in it. -/
structure x265_param_model where
  rc_rfConstant : Int
  bLossless : Int
  logLevel : Int
  sourceWidth : Int
  sourceHeight : Int
  fpsNum : Int
  fpsDenom : Int
deriving DecidableEq, Repr

/-! ### Adapter state: `struct x265_encoder_struct` -/

/-- `struct x265_encoder_struct`: the five-field adapter state.  `params` is
the configuration handle's contents, `encoder` the opaque encoder instance
handle (`none` = `nullptr`, `some id` = an open instance identified by `id`),
`nals`/`num_nals` the most recent output batch and its count, and
`nal_output_counter` the read cursor into that batch. -/
structure x265_encoder_struct where
  params : x265_param_model
  encoder : Option Nat
  nals : List Nal
  num_nals : Nat
  nal_output_counter : Nat

/-! ### Library-call events (for handle lifecycle claims) -/

/-- Calls the adapter makes into the wrapped library that create or destroy
library-owned resources. -/
inductive LibEvent where
  | param_alloc
  | param_free
  | picture_alloc
  | picture_free
  | encoder_open (id : Nat)
  | encoder_close (id : Nat)
  | encoder_encode
deriving DecidableEq, Repr

/-! ### The adapter's entry points -/

/-- `x265_new_encoder`: allocates the param handle, lets the library fill in
preset/profile defaults (`libDefaults`), overrides fps, source size and log
level, and initialises the adapter state.  Returns the fresh state, the
library-call events, and the `heif_error`. -/
def x265_new_encoder (libDefaults : x265_param_model) :
    x265_encoder_struct × List LibEvent × heif_error :=
  let param : x265_param_model :=
    { libDefaults with
      fpsNum := 1
      fpsDenom := 1
      sourceWidth := 0
      sourceHeight := 0
      logLevel := X265_LOG_NONE }
  (⟨param, none, [], 0, 0⟩, [.param_alloc], errSuccess)

/-- `x265_free_encoder`: frees the param handle, closes the encoder instance
when one is open, and deletes the state.  Only the library-call events are
observable. -/
def x265_free_encoder (encoder : x265_encoder_struct) : List LibEvent :=
  [.param_free] ++
    (match encoder.encoder with
     | some i => [LibEvent.encoder_close i]
     | none => [])

/-- `x265_set_param_quality`: `encoder->params->rc.rfConstant = (100-quality)/2;`
with C truncating `int` division. -/
def x265_set_param_quality (encoder : x265_encoder_struct) (quality : Int) :
    x265_encoder_struct × heif_error :=
  ({ encoder with
     params := { encoder.params with rc_rfConstant := Int.tdiv (100 - quality) 2 } },
   errSuccess)

/-- `x265_set_param_lossless`: `encoder->params->bLossless = enable;` -/
def x265_set_param_lossless (encoder : x265_encoder_struct) (enable : Int) :
    x265_encoder_struct × heif_error :=
  ({ encoder with params := { encoder.params with bLossless := enable } },
   errSuccess)

/-- `x265_set_param_logging_level`: clamps `logging` to `[0,4]` and stores it. -/
def x265_set_param_logging_level (encoder : x265_encoder_struct) (logging : Int) :
    x265_encoder_struct × heif_error :=
  let logging := if logging < 0 then 0 else logging
  let logging := if logging > 4 then 4 else logging
  ({ encoder with params := { encoder.params with logLevel := logging } },
   errSuccess)

/-- The image handed to `x265_encode_image`: the adapter only reads the Y
plane's width and height (plane pointers and strides are passed through to
the library untouched and do not influence adapter state). -/
structure heif_image_model where
  width : Int
  height : Int

/-- `w & ~1` on a C `int`: clear the lowest bit (two's complement), i.e.
round toward negative infinity to an even number. -/
def andNot1 (w : Int) : Int := w - w % 2

/-- `x265_encode_image`: allocates a picture, stores the even-rounded source
dimensions into the params, closes the previously open encoder instance (if
any), opens a new instance (`newId`), calls `x265_encoder_encode` with the
picture (oracle answer `resp`; its `result` is explicitly ignored by the
code), frees the picture, and resets the read cursor to 0. -/
def x265_encode_image (encoder : x265_encoder_struct) (image : heif_image_model)
    (newId : Nat) (resp : EncodeResp) :
    x265_encoder_struct × List LibEvent × heif_error :=
  let params' :=
    { encoder.params with
      sourceWidth := andNot1 image.width
      sourceHeight := andNot1 image.height }
  let closeEvents : List LibEvent :=
    match encoder.encoder with
    | some i => [LibEvent.encoder_close i]
    | none => []
  let events :=
    [LibEvent.picture_alloc] ++ closeEvents ++
      [LibEvent.encoder_open newId, LibEvent.encoder_encode, LibEvent.picture_free]
  ({ params := params'
     encoder := some newId
     nals := resp.nals
     num_nals := resp.nals.length
     nal_output_counter := 0 },
   events, errSuccess)

/-! ### `x265_get_compressed_data`: start-code skipping, SEI filtering,
pull loop -/

/-- The zero-skipping loop `while (**data==0 && *size>0) { (*data)++; (*size)--; }`
started at offset `off` with remaining size `s` (the size only becomes
negative after the loop, so inside it `s` is a `Nat`).  Returns the final
offset, the final size, and the list of offsets dereferenced by `**data` —
the condition dereferences before testing `*size>0`, so the offset of every
check is recorded, including the failing one. -/
def skipZerosLoop (b : Nat → Nat) : Nat → Nat → Nat × Nat × List Nat
  | off, 0 => (off, 0, [off])
  | off, s + 1 =>
    if b off = 0 then
      let r := skipZerosLoop b (off + 1) s
      (r.1, r.2.1, off :: r.2.2)
    else
      (off, s + 1, [off])

/-- Result of the start-code removal step on one NAL: the data pointer as an
offset from the payload base, the (possibly negative) `*size`, and the
offsets dereferenced while skipping zeros. -/
structure SkipOut where
  off : Nat
  size : Int
  derefs : List Nat
deriving Repr

/-- The full start-code removal: skip zero bytes, then skip one further byte
(`(*data)++; (*size)--;` unconditionally). -/
def skipStartCode (n : Nal) : SkipOut :=
  let r := skipZerosLoop (nalByte n) 0 n.sizeBytes
  ⟨r.1 + 1, (r.2.1 : Int) - 1, r.2.2⟩

/-- The filter condition `*size >= 3 && (*data)[0]==0x4e && (*data)[2]==5`
("unregistered user data SEI"), with `*data` at offset `off` of NAL `n`. -/
def isUnregisteredSEI (n : Nal) (off : Nat) (size : Int) : Prop :=
  3 ≤ size ∧ nalByte n off = 0x4e ∧ nalByte n (off + 2) = 5

instance (n : Nal) (off : Nat) (size : Int) : Decidable (isUnregisteredSEI n off size) := by
  unfold isUnregisteredSEI; infer_instance

/-- Outcome of the inner `while (nal_output_counter < num_nals)` scan. -/
inductive ScanResult where
  | output (counter : Nat) (n : Nal) (off : Nat) (size : Int)
  | exhausted (counter : Nat)

/-- The inner scan: while the cursor is below the batch count, take the NAL
at the cursor, advance the cursor, strip the start code; SEI NALs are
skipped, any other NAL is returned. -/
def scanBatch (nals : List Nal) (num : Nat) (counter : Nat) : ScanResult :=
  if h : counter < num then
    let n := nals.getD counter default
    let sk := skipStartCode n
    if isUnregisteredSEI n sk.off sk.size then
      scanBatch nals num (counter + 1)
    else
      .output (counter + 1) n sk.off sk.size
  else
    .exhausted counter
termination_by num - counter
decreasing_by omega

/-- What a returning `x265_get_compressed_data` call writes through
`*data`/`*size`: a NAL payload view (base pointer advanced by `off`, size
`size`), or `nullptr`/`0` at end of stream. -/
inductive GCDOut where
  | nal (n : Nal) (off : Nat) (size : Int)
  | eos

/-- The outer `for(;;)` loop of `x265_get_compressed_data`: scan the current
batch; when it is exhausted, call `x265_encoder_encode(encoder, …, NULL, NULL)`
(consuming the next oracle response).  The call writes the new batch through
`&encoder->nals` / `&encoder->num_nals` before its result is tested, so the
response's batch is installed in either case; a result `<= 0` then ends the
stream, otherwise the loop repeats over the new batch (the cursor is NOT
reset on this path).  `none` means the supplied oracle responses ran out
before the call returned. -/
def gcdLoop : x265_encoder_struct → List EncodeResp →
    Option (GCDOut × x265_encoder_struct)
  | s, resps =>
    match scanBatch s.nals s.num_nals s.nal_output_counter, resps with
    | .output c n off sz, _ => some (.nal n off sz, { s with nal_output_counter := c })
    | .exhausted _, [] => none
    | .exhausted c, r :: rest =>
      if r.result ≤ 0 then
        some (.eos,
          { s with
            nal_output_counter := c
            nals := r.nals
            num_nals := r.nals.length })
      else
        gcdLoop
          { s with
            nal_output_counter := c
            nals := r.nals
            num_nals := r.nals.length }
          rest

/-- `x265_get_compressed_data`: a `nullptr` encoder instance immediately
yields `*data = nullptr`, `*size = 0` and success with the state untouched;
otherwise the pull loop runs against the flush oracle `resps`. -/
def x265_get_compressed_data (s : x265_encoder_struct) (resps : List EncodeResp) :
    Option (GCDOut × x265_encoder_struct × heif_error) :=
  match s.encoder with
  | none => some (.eos, s, errSuccess)
  | some _ =>
    (gcdLoop s resps).map (fun p => (p.1, p.2, errSuccess))

/-! ### Spec-side definitions -/

/-- Number of leading zero bytes of a byte list (spec-side notion used to
state what start-code removal computes). -/
def leadingZeroCount : List Nat → Nat
  | [] => 0
  | b :: bs => if b = 0 then leadingZeroCount bs + 1 else 0

/-- The cursor value recorded in a scan outcome. -/
def ScanResult.counter : ScanResult → Nat
  | .output c _ _ _ => c
  | .exhausted c => c

/-- The flush responses grow monotonically: every response carries at least
`num` NALs, where `num` is the batch count current at the time of that flush
call.  (Real x265 violates this at end of stream, where it writes
`*pi_nal = 0` together with a nonpositive result.) -/
def flushOk : Nat → List EncodeResp → Prop
  | _, [] => True
  | num, r :: rest => num ≤ r.nals.length ∧ flushOk r.nals.length rest

/-! ### Operation sequences and library-call traces -/

/-- One adapter operation between `x265_new_encoder` and `x265_free_encoder`,
together with the oracle data answering its library calls. -/
inductive AdapterOp where
  | setQuality (q : Int)
  | setLossless (e : Int)
  | setLogging (l : Int)
  | encodeImage (img : heif_image_model) (newId : Nat) (resp : EncodeResp)
  | getData (resps : List EncodeResp)

/-- Run one operation; return the next state and the open/close-relevant
library events it performs.  `x265_get_compressed_data` only ever calls
`x265_encoder_encode`, which neither opens nor closes an instance, so its
event contribution to handle lifecycle is empty. -/
def runOp (s : x265_encoder_struct) : AdapterOp → x265_encoder_struct × List LibEvent
  | .setQuality q => ((x265_set_param_quality s q).1, [])
  | .setLossless e => ((x265_set_param_lossless s e).1, [])
  | .setLogging l => ((x265_set_param_logging_level s l).1, [])
  | .encodeImage img newId resp =>
    let r := x265_encode_image s img newId resp
    (r.1, r.2.1)
  | .getData resps =>
    match x265_get_compressed_data s resps with
    | some (_, s', _) => (s', [])
    | none => (s, [])

/-- Run a sequence of operations, accumulating the event trace. -/
def runOps : x265_encoder_struct → List AdapterOp → x265_encoder_struct × List LibEvent
  | s, [] => (s, [])
  | s, op :: ops =>
    let (s', ev) := runOp s op
    let (s'', tr) := runOps s' ops
    (s'', ev ++ tr)

/-- The full library-call trace of one adapter lifetime: `x265_new_encoder`,
then the operations `ops`, then `x265_free_encoder`. -/
def lifeTrace (libDefaults : x265_param_model) (ops : List AdapterOp) : List LibEvent :=
  let r := x265_new_encoder libDefaults
  let r2 := runOps r.1 ops
  r.2.1 ++ r2.2 ++ x265_free_encoder r2.1

/-! ### Helper lemmas about the zero-skip loop -/

lemma skipZerosLoop_stop (b : Nat → Nat) :
    ∀ (k off s : Nat), k < s → (∀ j, j < k → b (off + j) = 0) → b (off + k) ≠ 0 →
      skipZerosLoop b off s = (off + k, s - k, List.range' off (k + 1)) := by
  intro k
  induction k with
  | zero =>
    intro off s hk hz hnz
    match s, hk with
    | s + 1, _ =>
      rw [Nat.add_zero] at hnz
      simp [skipZerosLoop, hnz, List.range']
  | succ j ih =>
    intro off s hk hz hnz
    match s, hk with
    | s + 1, _ =>
      have hb0 : b off = 0 := by simpa using hz 0 (by omega)
      have hrec := ih (off + 1) s (by omega)
        (fun m hm => by
          have h1 := hz (m + 1) (by omega)
          have h2 : off + (m + 1) = off + 1 + m := by omega
          rwa [h2] at h1)
        (by
          have h2 : off + (j + 1) = off + 1 + j := by omega
          rwa [h2] at hnz)
      simp only [skipZerosLoop, hb0, if_true, hrec, Prod.mk.injEq]
      refine ⟨by omega, by omega, ?_⟩
      show List.range' off (j + 2) = off :: List.range' (off + 1) (j + 1)
      rfl

/-! ### Helper lemmas about `leadingZeroCount` -/

lemma leadingZeroCount_le (l : List Nat) : leadingZeroCount l ≤ l.length := by
  induction l with
  | nil => simp [leadingZeroCount]
  | cons b bs ih =>
    by_cases hb : b = 0
    · simp only [leadingZeroCount, hb, if_pos, List.length_cons]
      omega
    · simp [leadingZeroCount, hb]

lemma leadingZeroCount_zeros (l : List Nat) :
    ∀ j, j < leadingZeroCount l → l.getD j 1 = 0 := by
  induction l with
  | nil => simp [leadingZeroCount]
  | cons b bs ih =>
    intro j hj
    by_cases hb : b = 0
    · match j with
      | 0 => simpa using hb
      | j + 1 =>
        simp only [leadingZeroCount, hb, if_pos] at hj
        simpa using ih j (by omega)
    · simp [leadingZeroCount, hb] at hj

lemma leadingZeroCount_nonzero (l : List Nat) (h : leadingZeroCount l < l.length) :
    l.getD (leadingZeroCount l) 0 ≠ 0 := by
  induction l with
  | nil => simp at h
  | cons b bs ih =>
    by_cases hb : b = 0
    · simp only [leadingZeroCount, hb, if_pos] at h ⊢
      simpa using ih (by simpa using h)
    · intro hc
      simp only [leadingZeroCount, hb, if_neg, List.getD] at hc
      exact hb hc

lemma leadingZeroCount_lt (l : List Nat) (h : ∃ x ∈ l, x ≠ 0) :
    leadingZeroCount l < l.length := by
  induction l with
  | nil => simp at h
  | cons b bs ih =>
    by_cases hb : b = 0
    · rcases h with ⟨x, hx, hxne⟩
      rcases List.mem_cons.mp hx with hx | hx
      · exact absurd (hx ▸ hb) hxne
      · simp only [leadingZeroCount, hb, if_pos, List.length_cons]
        have := ih ⟨x, hx, hxne⟩
        omega
    · simp [leadingZeroCount, hb]

lemma nalByte_lt {n : Nal} {j : Nat} (h : j < n.payload.length) (d : Nat) :
    nalByte n j = n.payload.getD j d := by
  simp [nalByte, h, List.getD_eq_getElem, List.get_eq_getElem]

/-- On a well-formed NAL whose payload holds a nonzero byte, start-code
removal skips exactly the leading zeros plus one byte, dereferencing exactly
offsets `0 .. leadingZeroCount`. -/
lemma skipStartCode_spec {n : Nal} (hwf : n.wf) (hnz : ∃ x ∈ n.payload, x ≠ 0) :
    skipStartCode n =
      ⟨leadingZeroCount n.payload + 1,
       (n.payload.length : Int) - (leadingZeroCount n.payload + 1),
       List.range' 0 (leadingZeroCount n.payload + 1)⟩ := by
  have hz : leadingZeroCount n.payload < n.payload.length := leadingZeroCount_lt _ hnz
  have h1 : skipZerosLoop (nalByte n) 0 n.sizeBytes =
      (0 + leadingZeroCount n.payload, n.sizeBytes - leadingZeroCount n.payload,
        List.range' 0 (leadingZeroCount n.payload + 1)) := by
    apply skipZerosLoop_stop
    · rw [Nal.wf] at hwf; omega
    · intro j hj
      rw [Nat.zero_add, nalByte_lt (by omega) 1]
      exact leadingZeroCount_zeros _ j hj
    · rw [Nat.zero_add, nalByte_lt hz 0]
      exact leadingZeroCount_nonzero _ hz
  unfold skipStartCode
  rw [h1]
  rw [Nal.wf] at hwf
  refine congrArg₂ (fun a b => SkipOut.mk a b _) (by omega) ?_
  have hle : leadingZeroCount n.payload ≤ n.sizeBytes := by omega
  rw [Nat.cast_sub hle]
  omega

/-! ### Helper lemmas about the batch scan and the pull loop -/

lemma scanBatch_step (nals : List Nal) (num c : Nat) (h : c < num) :
    scanBatch nals num c =
      (let n := nals.getD c default
       let sk := skipStartCode n
       if isUnregisteredSEI n sk.off sk.size then scanBatch nals num (c + 1)
       else .output (c + 1) n sk.off sk.size) := by
  conv_lhs => rw [scanBatch]
  simp only [dif_pos h]

lemma scanBatch_stop (nals : List Nal) (num c : Nat) (h : ¬ c < num) :
    scanBatch nals num c = .exhausted c := by
  rw [scanBatch]
  simp only [dif_neg h]

lemma scanBatch_counter (nals : List Nal) (num : Nat) :
    ∀ c, c ≤ num → (scanBatch nals num c).counter ≤ num ∧
      (∀ c', scanBatch nals num c = .exhausted c' → c' = num) := by
  suffices H : ∀ fuel c, num - c = fuel → c ≤ num →
      (scanBatch nals num c).counter ≤ num ∧
        (∀ c', scanBatch nals num c = .exhausted c' → c' = num) by
    intro c hc
    exact H (num - c) c rfl hc
  intro fuel
  induction fuel with
  | zero =>
    intro c hf hc
    have hc' : c = num := by omega
    rw [scanBatch_stop _ _ _ (by omega)]
    exact ⟨le_of_eq hc', fun c' h => by cases h; omega⟩
  | succ f ih =>
    intro c hf hc
    have hlt : c < num := by omega
    rw [scanBatch_step _ _ _ hlt]
    simp only
    split
    · exact ih (c + 1) (by omega) (by omega)
    · exact ⟨by simpa [ScanResult.counter] using hlt, fun c' h => by cases h⟩

lemma scanBatch_output_spec (nals : List Nal) (num : Nat) :
    ∀ c c' n off sz, scanBatch nals num c = .output c' n off sz →
      ∃ i, c ≤ i ∧ i < num ∧ c' = i + 1 ∧ n = nals.getD i default ∧
        off = (skipStartCode n).off ∧ sz = (skipStartCode n).size ∧
        ¬ isUnregisteredSEI n off sz := by
  suffices H : ∀ fuel c, num - c = fuel → ∀ c' n off sz,
      scanBatch nals num c = .output c' n off sz →
      ∃ i, c ≤ i ∧ i < num ∧ c' = i + 1 ∧ n = nals.getD i default ∧
        off = (skipStartCode n).off ∧ sz = (skipStartCode n).size ∧
        ¬ isUnregisteredSEI n off sz by
    intro c
    exact H (num - c) c rfl
  intro fuel
  induction fuel with
  | zero =>
    intro c hf c' n off sz h
    rw [scanBatch_stop _ _ _ (by omega)] at h
    cases h
  | succ f ih =>
    intro c hf c' n off sz h
    by_cases hlt : c < num
    · rw [scanBatch_step _ _ _ hlt] at h
      simp only at h
      split at h
      · rcases ih (c + 1) (by omega) c' n off sz h with
          ⟨i, hi1, hi2, hi3, hi4, hi5, hi6, hi7⟩
        exact ⟨i, by omega, hi2, hi3, hi4, hi5, hi6, hi7⟩
      · cases h
        rename_i hsei
        exact ⟨c, le_refl c, hlt, rfl, rfl, rfl, rfl, hsei⟩
    · rw [scanBatch_stop _ _ _ hlt] at h
      cases h

/-- Unfolding: a successful scan yields that NAL at once. -/
lemma gcdLoop_out {s : x265_encoder_struct} {c : Nat} {n : Nal} {off : Nat} {sz : Int}
    (h : scanBatch s.nals s.num_nals s.nal_output_counter = .output c n off sz)
    (resps : List EncodeResp) :
    gcdLoop s resps = some (.nal n off sz, { s with nal_output_counter := c }) := by
  cases resps <;> (conv_lhs => rw [gcdLoop.eq_def]; dsimp only) <;> rw [h]

/-- Unfolding: an exhausted scan with no oracle response left. -/
lemma gcdLoop_nil {s : x265_encoder_struct} {c : Nat}
    (h : scanBatch s.nals s.num_nals s.nal_output_counter = .exhausted c) :
    gcdLoop s [] = none := by
  conv_lhs => rw [gcdLoop.eq_def]; dsimp only
  rw [h]

/-- Unfolding: an exhausted scan consumes the next flush response. -/
lemma gcdLoop_flush {s : x265_encoder_struct} {c : Nat}
    (h : scanBatch s.nals s.num_nals s.nal_output_counter = .exhausted c)
    (r : EncodeResp) (rest : List EncodeResp) :
    gcdLoop s (r :: rest) =
      if r.result ≤ 0 then
        some (.eos,
          { s with
            nal_output_counter := c
            nals := r.nals
            num_nals := r.nals.length })
      else
        gcdLoop
          { s with
            nal_output_counter := c
            nals := r.nals
            num_nals := r.nals.length }
          rest := by
  conv_lhs => rw [gcdLoop.eq_def]; dsimp only
  rw [h]

lemma gcdLoop_state {s : x265_encoder_struct} {resps : List EncodeResp}
    {o : GCDOut} {s' : x265_encoder_struct}
    (h : gcdLoop s resps = some (o, s')) :
    s'.encoder = s.encoder ∧ s'.params = s.params := by
  induction resps generalizing s with
  | nil =>
    cases hscan : scanBatch s.nals s.num_nals s.nal_output_counter with
    | output c n off sz =>
      rw [gcdLoop_out hscan] at h
      cases h
      exact ⟨rfl, rfl⟩
    | exhausted c =>
      rw [gcdLoop_nil hscan] at h
      cases h
  | cons r rest ih =>
    cases hscan : scanBatch s.nals s.num_nals s.nal_output_counter with
    | output c n off sz =>
      rw [gcdLoop_out hscan] at h
      cases h
      exact ⟨rfl, rfl⟩
    | exhausted c =>
      rw [gcdLoop_flush hscan] at h
      split at h
      · cases h
        exact ⟨rfl, rfl⟩
      · have hr := ih h
        exact hr

lemma gcdLoop_output_spec {s : x265_encoder_struct} {resps : List EncodeResp}
    {n : Nal} {off : Nat} {sz : Int} {s' : x265_encoder_struct}
    (h : gcdLoop s resps = some (.nal n off sz, s')) :
    off = (skipStartCode n).off ∧ sz = (skipStartCode n).size ∧
      ¬ isUnregisteredSEI n off sz := by
  induction resps generalizing s with
  | nil =>
    cases hscan : scanBatch s.nals s.num_nals s.nal_output_counter with
    | output c n0 off0 sz0 =>
      rw [gcdLoop_out hscan] at h
      cases h
      rcases scanBatch_output_spec _ _ _ _ _ _ _ hscan with
        ⟨i, _, _, _, _, h5, h6, h7⟩
      exact ⟨h5, h6, h7⟩
    | exhausted c =>
      rw [gcdLoop_nil hscan] at h
      cases h
  | cons r rest ih =>
    cases hscan : scanBatch s.nals s.num_nals s.nal_output_counter with
    | output c n0 off0 sz0 =>
      rw [gcdLoop_out hscan] at h
      cases h
      rcases scanBatch_output_spec _ _ _ _ _ _ _ hscan with
        ⟨i, _, _, _, _, h5, h6, h7⟩
      exact ⟨h5, h6, h7⟩
    | exhausted c =>
      rw [gcdLoop_flush hscan] at h
      split at h
      · cases h
      · exact ih h

lemma gcdLoop_inv {s : x265_encoder_struct} {resps : List EncodeResp}
    {o : GCDOut} {s' : x265_encoder_struct}
    (hc : s.nal_output_counter ≤ s.num_nals)
    (hok : flushOk s.num_nals resps)
    (h : gcdLoop s resps = some (o, s')) :
    s'.nal_output_counter ≤ s'.num_nals := by
  induction resps generalizing s with
  | nil =>
    cases hscan : scanBatch s.nals s.num_nals s.nal_output_counter with
    | output c n off sz =>
      rw [gcdLoop_out hscan] at h
      cases h
      have := (scanBatch_counter s.nals s.num_nals s.nal_output_counter hc).1
      rw [hscan] at this
      simpa [ScanResult.counter] using this
    | exhausted c =>
      rw [gcdLoop_nil hscan] at h
      cases h
  | cons r rest ih =>
    cases hscan : scanBatch s.nals s.num_nals s.nal_output_counter with
    | output c n off sz =>
      rw [gcdLoop_out hscan] at h
      cases h
      have := (scanBatch_counter s.nals s.num_nals s.nal_output_counter hc).1
      rw [hscan] at this
      simpa [ScanResult.counter] using this
    | exhausted c =>
      have hcn := (scanBatch_counter s.nals s.num_nals s.nal_output_counter hc).2 _ hscan
      obtain ⟨hlen, hok'⟩ := hok
      rw [gcdLoop_flush hscan] at h
      split at h
      · cases h
        show c ≤ r.nals.length
        omega
      · exact ih (by show c ≤ r.nals.length; omega) hok' h

/-- Contribution of one event to the number of open encoder instances. -/
def openDelta : LibEvent → Int
  | .encoder_open _ => 1
  | .encoder_close _ => -1
  | _ => 0

/-- Number of encoder instances left open by a trace. -/
def openCount (t : List LibEvent) : Int := (t.map openDelta).sum

/-- 1 when the state holds an open encoder instance, else 0. -/
def openIndicator (s : x265_encoder_struct) : Int :=
  match s.encoder with
  | some _ => 1
  | none => 0

/-! ### Helper lemmas about open-instance counting -/

lemma openCount_append (a b : List LibEvent) :
    openCount (a ++ b) = openCount a + openCount b := by
  simp [openCount]

lemma openCount_take_append (a b : List LibEvent) (k : Nat) :
    openCount ((a ++ b).take k) =
      openCount (a.take k) + openCount (b.take (k - a.length)) := by
  rw [List.take_append_eq_append_take, openCount_append]

lemma openIndicator_nonneg (s : x265_encoder_struct) : 0 ≤ openIndicator s := by
  unfold openIndicator
  cases s.encoder <;> norm_num

lemma openIndicator_le_one (s : x265_encoder_struct) : openIndicator s ≤ 1 := by
  unfold openIndicator
  cases s.encoder <;> norm_num

/-- The running trace invariant: the trace's net open count matches the
state, and no moment of the trace ever had more than one instance open. -/
def goodTrace (s : x265_encoder_struct) (t : List LibEvent) : Prop :=
  openCount t = openIndicator s ∧ ∀ k, openCount (t.take k) ≤ 1

lemma goodTrace_extend {s s' : x265_encoder_struct} {t : List LibEvent}
    (ev : List LibEvent) (hgt : goodTrace s t)
    (hev : openCount ev = openIndicator s' - openIndicator s)
    (hpre : ∀ j, openIndicator s + openCount (ev.take j) ≤ 1) :
    goodTrace s' (t ++ ev) := by
  constructor
  · rw [openCount_append, hgt.1, hev]
    ring
  · intro k
    rw [openCount_take_append]
    by_cases hk : k ≤ t.length
    · have h0 : ev.take (k - t.length) = [] := by
        rw [Nat.sub_eq_zero_of_le hk, List.take_zero]
      rw [h0]
      have h1 := hgt.2 k
      have h2 : openCount ([] : List LibEvent) = 0 := rfl
      omega
    · rw [List.take_of_length_le (by omega), hgt.1]
      exact hpre (k - t.length)

lemma events_encode_close (i id : Nat) :
    openCount [LibEvent.picture_alloc, LibEvent.encoder_close i,
      LibEvent.encoder_open id, LibEvent.encoder_encode, LibEvent.picture_free] = 0 ∧
    ∀ j, openCount ([LibEvent.picture_alloc, LibEvent.encoder_close i,
      LibEvent.encoder_open id, LibEvent.encoder_encode,
      LibEvent.picture_free].take j) ≤ 0 := by
  refine ⟨by simp [openCount, openDelta], ?_⟩
  intro j
  match j with
  | 0 => simp [openCount]
  | 1 => simp [openCount, openDelta]
  | 2 => simp [openCount, openDelta]
  | 3 => simp [openCount, openDelta]
  | 4 => simp [openCount, openDelta]
  | j + 5 =>
    rw [List.take_of_length_le (by simp)]
    simp [openCount, openDelta]

lemma events_encode_fresh (id : Nat) :
    openCount [LibEvent.picture_alloc, LibEvent.encoder_open id,
      LibEvent.encoder_encode, LibEvent.picture_free] = 1 ∧
    ∀ j, openCount ([LibEvent.picture_alloc, LibEvent.encoder_open id,
      LibEvent.encoder_encode, LibEvent.picture_free].take j) ≤ 1 := by
  refine ⟨by simp [openCount, openDelta], ?_⟩
  intro j
  match j with
  | 0 => simp [openCount]
  | 1 => simp [openCount, openDelta]
  | 2 => simp [openCount, openDelta]
  | 3 => simp [openCount, openDelta]
  | j + 4 =>
    rw [List.take_of_length_le (by simp)]
    simp [openCount, openDelta]

lemma events_free (s : x265_encoder_struct) :
    openCount (x265_free_encoder s) = -openIndicator s ∧
    ∀ j, openIndicator s + openCount ((x265_free_encoder s).take j) ≤ 1 := by
  unfold x265_free_encoder openIndicator
  cases s.encoder with
  | none =>
    refine ⟨by simp [openCount, openDelta], ?_⟩
    intro j
    match j with
    | 0 => simp [openCount]
    | j + 1 =>
      rw [List.take_of_length_le (by simp)]
      simp [openCount, openDelta]
  | some i =>
    refine ⟨by simp [openCount, openDelta], ?_⟩
    intro j
    match j with
    | 0 => simp [openCount]
    | 1 => simp [openCount, openDelta]
    | j + 2 =>
      rw [List.take_of_length_le (by simp)]
      simp [openCount, openDelta]

lemma goodTrace_keep {s s' : x265_encoder_struct} {t : List LibEvent}
    (hgt : goodTrace s t) (hs : s'.encoder = s.encoder) : goodTrace s' t := by
  have he : openIndicator s' = openIndicator s := by
    unfold openIndicator
    rw [hs]
  exact ⟨by rw [hgt.1, he], hgt.2⟩

lemma runOp_goodTrace {s : x265_encoder_struct} {t : List LibEvent}
    (hgt : goodTrace s t) (op : AdapterOp) :
    goodTrace (runOp s op).1 (t ++ (runOp s op).2) := by
  cases op with
  | setQuality q =>
    show goodTrace (x265_set_param_quality s q).1 (t ++ [])
    rw [List.append_nil]
    exact goodTrace_keep hgt rfl
  | setLossless e =>
    show goodTrace (x265_set_param_lossless s e).1 (t ++ [])
    rw [List.append_nil]
    exact goodTrace_keep hgt rfl
  | setLogging l =>
    show goodTrace (x265_set_param_logging_level s l).1 (t ++ [])
    rw [List.append_nil]
    exact goodTrace_keep hgt rfl
  | encodeImage img newId resp =>
    cases henc : s.encoder with
    | some i =>
      have hev := events_encode_close i newId
      have hshape : (runOp s (.encodeImage img newId resp)).2 =
          [LibEvent.picture_alloc, LibEvent.encoder_close i, LibEvent.encoder_open newId,
           LibEvent.encoder_encode, LibEvent.picture_free] := by
        simp [runOp, x265_encode_image, henc]
      have hindnew : openIndicator (runOp s (.encodeImage img newId resp)).1 = 1 := by
        simp [runOp, x265_encode_image, openIndicator]
      have hindold : openIndicator s = 1 := by
        simp [openIndicator, henc]
      refine goodTrace_extend _ hgt ?_ ?_
      · rw [hshape, hev.1, hindnew, hindold]
        norm_num
      · intro j
        rw [hshape, hindold]
        have := hev.2 j
        omega
    | none =>
      have hev := events_encode_fresh newId
      have hshape : (runOp s (.encodeImage img newId resp)).2 =
          [LibEvent.picture_alloc, LibEvent.encoder_open newId,
           LibEvent.encoder_encode, LibEvent.picture_free] := by
        simp [runOp, x265_encode_image, henc]
      have hindnew : openIndicator (runOp s (.encodeImage img newId resp)).1 = 1 := by
        simp [runOp, x265_encode_image, openIndicator]
      have hindold : openIndicator s = 0 := by
        simp [openIndicator, henc]
      refine goodTrace_extend _ hgt ?_ ?_
      · rw [hshape, hev.1, hindnew, hindold]
        norm_num
      · intro j
        rw [hshape, hindold]
        have := hev.2 j
        omega
  | getData resps =>
    have hsame : ((runOp s (.getData resps)).1).encoder = s.encoder := by
      simp only [runOp]
      cases hg : x265_get_compressed_data s resps with
      | none => rfl
      | some p =>
        obtain ⟨o, s', e⟩ := p
        simp only
        unfold x265_get_compressed_data at hg
        cases henc : s.encoder with
        | none =>
          rw [henc] at hg
          cases hg
          exact henc
        | some i =>
          rw [henc] at hg
          rw [Option.map_eq_some'] at hg
          obtain ⟨⟨o0, s0⟩, hg0, hg1⟩ := hg
          cases hg1
          exact (gcdLoop_state hg0).1.trans henc
    have hnil : (runOp s (.getData resps)).2 = [] := by
      simp only [runOp]
      split <;> rfl
    rw [hnil, List.append_nil]
    exact goodTrace_keep hgt hsame

lemma runOps_goodTrace {s : x265_encoder_struct} {t : List LibEvent}
    (hgt : goodTrace s t) (ops : List AdapterOp) :
    goodTrace (runOps s ops).1 (t ++ (runOps s ops).2) := by
  induction ops generalizing s t with
  | nil =>
    simpa [runOps] using hgt
  | cons op ops ih =>
    have h1 := runOp_goodTrace hgt op
    have h2 := ih h1
    simp only [runOps]
    rw [← List.append_assoc]
    exact h2

lemma lifeTrace_goodTrace (libDefaults : x265_param_model) (ops : List AdapterOp) :
    ∀ k, openCount ((lifeTrace libDefaults ops).take k) ≤ 1 := by
  have h0 : goodTrace (x265_new_encoder libDefaults).1 [LibEvent.param_alloc] := by
    constructor
    · simp [openCount, openDelta, x265_new_encoder, openIndicator]
    · intro k
      match k with
      | 0 => simp [openCount]
      | k + 1 =>
        rw [List.take_of_length_le (by simp)]
        simp [openCount, openDelta]
  have h1 := runOps_goodTrace h0 ops
  have hfree := events_free (runOps (x265_new_encoder libDefaults).1 ops).1
  intro k
  show openCount (((([LibEvent.param_alloc] ++
      (runOps (x265_new_encoder libDefaults).1 ops).2)) ++
      x265_free_encoder (runOps (x265_new_encoder libDefaults).1 ops).1).take k) ≤ 1
  rw [openCount_take_append]
  by_cases hk : k ≤ ([LibEvent.param_alloc] ++
      (runOps (x265_new_encoder libDefaults).1 ops).2).length
  · have h3 : (x265_free_encoder (runOps (x265_new_encoder libDefaults).1 ops).1).take
        (k - ([LibEvent.param_alloc] ++
          (runOps (x265_new_encoder libDefaults).1 ops).2).length) = [] := by
      rw [Nat.sub_eq_zero_of_le hk, List.take_zero]
    rw [h3]
    have h4 := h1.2 k
    have h5 : openCount ([] : List LibEvent) = 0 := rfl
    omega
  · rw [List.take_of_length_le (by omega), h1.1]
    exact hfree.2 _

/-! ### Monotonicity of C truncating division by 2 -/

lemma tdiv_two_mono {a b : Int} (h : a ≤ b) : Int.tdiv a 2 ≤ Int.tdiv b 2 := by
  have ea := Int.tmod_add_tdiv a 2
  have eb := Int.tmod_add_tdiv b 2
  have ea2 := Int.tmod_add_tdiv (-a) 2
  have eb2 := Int.tmod_add_tdiv (-b) 2
  rw [Int.neg_tdiv] at ea2 eb2
  have la := Int.tmod_lt_of_pos a (show (0 : Int) < 2 by norm_num)
  have lb := Int.tmod_lt_of_pos b (show (0 : Int) < 2 by norm_num)
  have la2 := Int.tmod_lt_of_pos (-a) (show (0 : Int) < 2 by norm_num)
  have lb2 := Int.tmod_lt_of_pos (-b) (show (0 : Int) < 2 by norm_num)
  have na : 0 ≤ a → 0 ≤ Int.tmod a 2 := fun h0 => Int.tmod_nonneg 2 h0
  have nb : 0 ≤ b → 0 ≤ Int.tmod b 2 := fun h0 => Int.tmod_nonneg 2 h0
  have na2 : a ≤ 0 → 0 ≤ Int.tmod (-a) 2 := fun h0 => Int.tmod_nonneg 2 (by omega)
  have nb2 : b ≤ 0 → 0 ≤ Int.tmod (-b) 2 := fun h0 => Int.tmod_nonneg 2 (by omega)
  omega

/-! ### Sample inputs for witnesses -/

/-- A plausible set of library preset defaults, used for concrete runs. -/
def sampleParams : x265_param_model := ⟨28, 0, 2, 0, 0, 25, 1⟩

/-- A well-formed non-SEI NAL: 3-byte start code `00 00 01`, NAL header
`26 01` (IDR slice), one payload byte. -/
def sampleNal : Nal := ⟨[0, 0, 1, 0x26, 1, 0x88], 6, fun _ => 0⟩

/-- A fresh-looking adapter state with no open encoder instance. -/
def sampleFresh : x265_encoder_struct := ⟨sampleParams, none, [], 0, 0⟩

/-- An adapter state right after an encode: one unread NAL in the batch. -/
def sampleReady : x265_encoder_struct := ⟨sampleParams, some 0, [sampleNal], 1, 0⟩

/-- An adapter state whose batch is fully consumed. -/
def sampleDrained : x265_encoder_struct := ⟨sampleParams, some 0, [sampleNal], 1, 1⟩

/-! ### Claims -/

/-- C1: every plugin entry point that returns a `heif_error` —
`x265_new_encoder`, `x265_set_param_quality`, `x265_set_param_lossless`,
`x265_set_param_logging_level`, `x265_encode_image` and
`x265_get_compressed_data` — returns `heif_error_Ok` with suberror
`heif_suberror_Unspecified` and message `"Success"` on every execution path,
for all inputs and all wrapped-library responses. -/
theorem c1_always_success :
    errSuccess = ⟨.Ok, .Unspecified, "Success"⟩ ∧
    (∀ d, (x265_new_encoder d).2.2 = errSuccess) ∧
    (∀ s q, (x265_set_param_quality s q).2 = errSuccess) ∧
    (∀ s e, (x265_set_param_lossless s e).2 = errSuccess) ∧
    (∀ s l, (x265_set_param_logging_level s l).2 = errSuccess) ∧
    (∀ s img id r, (x265_encode_image s img id r).2.2 = errSuccess) ∧
    (∀ s resps out, x265_get_compressed_data s resps = some out →
      out.2.2 = errSuccess) := by
  refine ⟨rfl, fun d => rfl, fun s q => rfl, fun s e => rfl, fun s l => rfl,
    fun s img id r => rfl, fun s resps out h => ?_⟩
  unfold x265_get_compressed_data at h
  cases henc : s.encoder with
  | none =>
    rw [henc] at h
    cases h
    rfl
  | some i =>
    rw [henc, Option.map_eq_some'] at h
    obtain ⟨⟨o0, s0⟩, _, h1⟩ := h
    rw [← h1]

/-- Witness for C1 at a concrete call: a `x265_get_compressed_data` call on a
state with no open instance returns the success error. -/
theorem c1_always_success_witness :
    ((GCDOut.eos, sampleFresh, errSuccess) :
      GCDOut × x265_encoder_struct × heif_error).2.2 = errSuccess :=
  c1_always_success.2.2.2.2.2.2 sampleFresh [] _ rfl

/-- C8: for every integer quality `q`, `x265_set_param_quality` sets
`rc.rfConstant` to `(100 - q) / 2` with truncating integer division, so
quality 0 maps to CRF 50, 50 to 25, 100 to 0; the resulting CRF is
monotonically non-increasing in `q`; and no other adapter state changes. -/
theorem c8_quality_mapping :
    (∀ (s : x265_encoder_struct) (q : Int),
      ((x265_set_param_quality s q).1).params.rc_rfConstant = Int.tdiv (100 - q) 2) ∧
    (∀ s, ((x265_set_param_quality s 0).1).params.rc_rfConstant = 50) ∧
    (∀ s, ((x265_set_param_quality s 50).1).params.rc_rfConstant = 25) ∧
    (∀ s, ((x265_set_param_quality s 100).1).params.rc_rfConstant = 0) ∧
    (∀ (s₁ s₂ : x265_encoder_struct) (q₁ q₂ : Int), q₁ ≤ q₂ →
      ((x265_set_param_quality s₂ q₂).1).params.rc_rfConstant ≤
        ((x265_set_param_quality s₁ q₁).1).params.rc_rfConstant) ∧
    (∀ (s : x265_encoder_struct) (q : Int),
      ((x265_set_param_quality s q).1).encoder = s.encoder ∧
      ((x265_set_param_quality s q).1).nals = s.nals ∧
      ((x265_set_param_quality s q).1).num_nals = s.num_nals ∧
      ((x265_set_param_quality s q).1).nal_output_counter = s.nal_output_counter ∧
      ((x265_set_param_quality s q).1).params.bLossless = s.params.bLossless ∧
      ((x265_set_param_quality s q).1).params.logLevel = s.params.logLevel ∧
      ((x265_set_param_quality s q).1).params.sourceWidth = s.params.sourceWidth ∧
      ((x265_set_param_quality s q).1).params.sourceHeight = s.params.sourceHeight ∧
      ((x265_set_param_quality s q).1).params.fpsNum = s.params.fpsNum ∧
      ((x265_set_param_quality s q).1).params.fpsDenom = s.params.fpsDenom) := by
  refine ⟨fun s q => rfl,
    fun s => show Int.tdiv (100 - 0) 2 = (50 : Int) by decide,
    fun s => show Int.tdiv (100 - 50) 2 = (25 : Int) by decide,
    fun s => show Int.tdiv (100 - 100) 2 = (0 : Int) by decide,
    fun s₁ s₂ q₁ q₂ h => tdiv_two_mono (by omega),
    fun s q => ⟨rfl, rfl, rfl, rfl, rfl, rfl, rfl, rfl, rfl, rfl⟩⟩

/-- Witness for C8's monotonicity hypothesis at concrete qualities 0 ≤ 100. -/
theorem c8_quality_mapping_witness :
    ((x265_set_param_quality sampleFresh 100).1).params.rc_rfConstant ≤
      ((x265_set_param_quality sampleFresh 0).1).params.rc_rfConstant :=
  c8_quality_mapping.2.2.2.2.1 sampleFresh sampleFresh 0 100 (by norm_num)

/-- C9: a `x265_get_compressed_data` call with a null encoder instance handle
writes `*data = nullptr`, `*size = 0`, returns success, and leaves the
adapter state unchanged. -/
theorem c9_null_encoder (s : x265_encoder_struct) (resps : List EncodeResp)
    (h : s.encoder = none) :
    x265_get_compressed_data s resps = some (.eos, s, errSuccess) := by
  unfold x265_get_compressed_data
  rw [h]

/-- Witness for C9 at a concrete fresh state. -/
theorem c9_null_encoder_witness :
    x265_get_compressed_data sampleFresh [] = some (.eos, sampleFresh, errSuccess) :=
  c9_null_encoder sampleFresh [] rfl

/-- C10: every adapter operation is a deterministic function of the adapter
state, its arguments, and the wrapped library's responses: equal inputs give
equal outputs, errors and final states. -/
theorem c10_deterministic :
    (∀ d₁ d₂ : x265_param_model, d₁ = d₂ →
      x265_new_encoder d₁ = x265_new_encoder d₂) ∧
    (∀ (s₁ s₂ : x265_encoder_struct) (q₁ q₂ : Int), s₁ = s₂ → q₁ = q₂ →
      x265_set_param_quality s₁ q₁ = x265_set_param_quality s₂ q₂) ∧
    (∀ (s₁ s₂ : x265_encoder_struct) (e₁ e₂ : Int), s₁ = s₂ → e₁ = e₂ →
      x265_set_param_lossless s₁ e₁ = x265_set_param_lossless s₂ e₂) ∧
    (∀ (s₁ s₂ : x265_encoder_struct) (l₁ l₂ : Int), s₁ = s₂ → l₁ = l₂ →
      x265_set_param_logging_level s₁ l₁ = x265_set_param_logging_level s₂ l₂) ∧
    (∀ s₁ s₂ : x265_encoder_struct, s₁ = s₂ →
      x265_free_encoder s₁ = x265_free_encoder s₂) ∧
    (∀ (s₁ s₂ : x265_encoder_struct) (img₁ img₂ : heif_image_model)
        (id₁ id₂ : Nat) (r₁ r₂ : EncodeResp),
      s₁ = s₂ → img₁ = img₂ → id₁ = id₂ → r₁ = r₂ →
      x265_encode_image s₁ img₁ id₁ r₁ = x265_encode_image s₂ img₂ id₂ r₂) ∧
    (∀ (s₁ s₂ : x265_encoder_struct) (resps₁ resps₂ : List EncodeResp),
      s₁ = s₂ → resps₁ = resps₂ →
      x265_get_compressed_data s₁ resps₁ = x265_get_compressed_data s₂ resps₂) := by
  refine ⟨?_, ?_, ?_, ?_, ?_, ?_, ?_⟩
  · intro d₁ d₂ h
    rw [h]
  · intro s₁ s₂ q₁ q₂ h1 h2
    rw [h1, h2]
  · intro s₁ s₂ e₁ e₂ h1 h2
    rw [h1, h2]
  · intro s₁ s₂ l₁ l₂ h1 h2
    rw [h1, h2]
  · intro s₁ s₂ h1
    rw [h1]
  · intro s₁ s₂ img₁ img₂ id₁ id₂ r₁ r₂ h1 h2 h3 h4
    rw [h1, h2, h3, h4]
  · intro s₁ s₂ r₁ r₂ h1 h2
    rw [h1, h2]

/-- Witness for C10 at a concrete repeated call. -/
theorem c10_deterministic_witness :
    x265_get_compressed_data sampleFresh [] = x265_get_compressed_data sampleFresh [] :=
  c10_deterministic.2.2.2.2.2.2 sampleFresh sampleFresh [] [] rfl rfl

/-- C4: `x265_get_compressed_data` is pull-based: when the read cursor has
reached the batch count, it calls `x265_encoder_encode` with a NULL picture
(consuming the next flush response, whose batch is written through the
out-parameters before the result is tested); if and only if that call's
result is `<= 0`, it writes `*data = nullptr`, `*size = 0` and returns
success (end of stream), otherwise the loop continues over the new batch. -/
theorem c4_pull_based (s : x265_encoder_struct) (i : Nat) (r : EncodeResp)
    (rest : List EncodeResp) (henc : s.encoder = some i)
    (hc : s.nal_output_counter = s.num_nals) :
    x265_get_compressed_data s (r :: rest) =
      if r.result ≤ 0 then
        some (.eos, { s with nals := r.nals, num_nals := r.nals.length }, errSuccess)
      else x265_get_compressed_data
        { s with nals := r.nals, num_nals := r.nals.length } rest := by
  have hscan : scanBatch s.nals s.num_nals s.nal_output_counter =
      .exhausted s.nal_output_counter := scanBatch_stop _ _ _ (by omega)
  by_cases hres : r.result ≤ 0
  · rw [if_pos hres]
    unfold x265_get_compressed_data
    rw [henc, gcdLoop_flush hscan, if_pos hres, henc]
    rfl
  · rw [if_neg hres]
    unfold x265_get_compressed_data
    rw [henc, gcdLoop_flush hscan, if_neg hres, henc]

/-- Witness for C4 at a concrete drained state with a flush result of 0. -/
theorem c4_pull_based_witness :
    x265_get_compressed_data sampleDrained [⟨0, []⟩] =
      some (.eos, ⟨sampleParams, some 0, [], 0, 1⟩, errSuccess) := by
  have h := c4_pull_based sampleDrained 0 ⟨0, []⟩ [] rfl rfl
  simpa using h

/-- A NAL with an empty payload: the C scan dereferences the byte at the
payload's end before testing `*size > 0`. -/
def emptyNal : Nal := ⟨[], 0, fun _ => 0⟩

/-- A NAL whose payload is entirely zero bytes: after skipping them the scan
dereferences one byte past the payload's end, and the unconditional
`(*data)++; (*size)--;` drives `*size` to -1. -/
def allZeroNal : Nal := ⟨[0, 0], 2, fun _ => 0⟩

/-- Counterexample to C5 as stated: on the empty payload the start-code
skipping step dereferences offset 0 (at the payload's end), leaves
`*size = -1 < 0`, and advances the data pointer past the payload; on the
all-zero two-byte payload it dereferences offset 2 (past the end), leaves
`*size = -1`, and advances the pointer to offset 3. -/
theorem c5_counterexample :
    (emptyNal.wf ∧ 0 ∈ (skipStartCode emptyNal).derefs ∧
      emptyNal.payload.length ≤ 0 ∧ (skipStartCode emptyNal).size < 0 ∧
      emptyNal.payload.length < (skipStartCode emptyNal).off) ∧
    (allZeroNal.wf ∧ 2 ∈ (skipStartCode allZeroNal).derefs ∧
      allZeroNal.payload.length ≤ 2 ∧ (skipStartCode allZeroNal).size < 0 ∧
      allZeroNal.payload.length < (skipStartCode allZeroNal).off) := by
  constructor
  · refine ⟨rfl, ?_, ?_, ?_, ?_⟩ <;> decide
  · refine ⟨rfl, ?_, ?_, ?_, ?_⟩ <;> decide

/-- C5 as amended: for every well-formed NAL payload that contains a nonzero
byte, the start-code skipping step terminates with `*size` nonnegative, the
data pointer within the payload's bounds, and every dereference strictly
inside the payload. -/
theorem c5_skip_safety (n : Nal) (hwf : n.wf) (hnz : ∃ x ∈ n.payload, x ≠ 0) :
    0 ≤ (skipStartCode n).size ∧ (skipStartCode n).off ≤ n.payload.length ∧
    ∀ i ∈ (skipStartCode n).derefs, i < n.payload.length := by
  have hz := leadingZeroCount_lt _ hnz
  rw [skipStartCode_spec hwf hnz]
  refine ⟨?_, ?_, ?_⟩
  · show (0 : Int) ≤ (n.payload.length : Int) - (leadingZeroCount n.payload + 1)
    omega
  · show leadingZeroCount n.payload + 1 ≤ n.payload.length
    omega
  · intro i hi
    have : i ∈ List.range' 0 (leadingZeroCount n.payload + 1) := hi
    rw [List.mem_range'_1] at this
    omega

/-- Witness for C5 (amended) at a concrete NAL with a 3-byte start code. -/
theorem c5_skip_safety_witness :
    0 ≤ (skipStartCode sampleNal).size ∧
    (skipStartCode sampleNal).off ≤ sampleNal.payload.length ∧
    ∀ i ∈ (skipStartCode sampleNal).derefs, i < sampleNal.payload.length :=
  c5_skip_safety sampleNal rfl (by decide)

/-- Extract the loop-level fact from a top-level call that returned a NAL. -/
lemma get_compressed_nal {s : x265_encoder_struct} {resps : List EncodeResp}
    {n : Nal} {off : Nat} {sz : Int} {s' : x265_encoder_struct} {e : heif_error}
    (h : x265_get_compressed_data s resps = some (.nal n off sz, s', e)) :
    gcdLoop s resps = some (.nal n off sz, s') := by
  unfold x265_get_compressed_data at h
  cases henc : s.encoder with
  | none =>
    rw [henc] at h
    simp at h
  | some i =>
    rw [henc, Option.map_eq_some'] at h
    obtain ⟨⟨o0, s0⟩, hg, heq⟩ := h
    simp only [Prod.mk.injEq] at heq
    obtain ⟨h1, h2, h3⟩ := heq
    rw [hg, h1, h2]

/-- The concrete pull that returns `sampleNal` out of `sampleReady`. -/
lemma sampleRun :
    x265_get_compressed_data sampleReady [] =
      some (.nal sampleNal 3 3, sampleDrained, errSuccess) := by
  have hscan : scanBatch sampleReady.nals sampleReady.num_nals
      sampleReady.nal_output_counter = .output 1 sampleNal 3 3 := by
    rw [scanBatch_step _ _ _ (by decide)]
    dsimp only
    rw [if_neg (by decide)]
    rfl
  have hg := gcdLoop_out hscan []
  show (gcdLoop sampleReady []).map
      (fun p : GCDOut × x265_encoder_struct => (p.1, p.2, errSuccess)) =
    some (.nal sampleNal 3 3, sampleDrained, errSuccess)
  rw [hg]
  rfl

/-- C2: `x265_get_compressed_data` never returns a NAL whose payload, after
start-code removal, has size at least 3 with byte 0 equal to 0x4e and byte 2
equal to 5 (an "unregistered user data SEI" NAL); within a batch, any such
NAL is skipped with the cursor advanced, and any other NAL at the cursor is
returned with the cursor advanced. -/
theorem c2_sei_filter :
    (∀ (s : x265_encoder_struct) (resps : List EncodeResp) (n : Nal) (off : Nat)
        (sz : Int) (s' : x265_encoder_struct) (e : heif_error),
      x265_get_compressed_data s resps = some (.nal n off sz, s', e) →
      ¬ (3 ≤ sz ∧ nalByte n off = 0x4e ∧ nalByte n (off + 2) = 5)) ∧
    (∀ (nals : List Nal) (num c : Nat), c < num →
      (isUnregisteredSEI (nals.getD c default)
          (skipStartCode (nals.getD c default)).off
          (skipStartCode (nals.getD c default)).size →
        scanBatch nals num c = scanBatch nals num (c + 1)) ∧
      (¬ isUnregisteredSEI (nals.getD c default)
          (skipStartCode (nals.getD c default)).off
          (skipStartCode (nals.getD c default)).size →
        scanBatch nals num c = ScanResult.output (c + 1) (nals.getD c default)
          (skipStartCode (nals.getD c default)).off
          (skipStartCode (nals.getD c default)).size)) := by
  constructor
  · intro s resps n off sz s' e h
    exact (gcdLoop_output_spec (get_compressed_nal h)).2.2
  · intro nals num c hlt
    constructor
    · intro hsei
      rw [scanBatch_step _ _ _ hlt]
      dsimp only
      rw [if_pos hsei]
    · intro hsei
      rw [scanBatch_step _ _ _ hlt]
      dsimp only
      rw [if_neg hsei]

/-- Witness for C2 at the concrete returned NAL of `sampleRun`. -/
theorem c2_sei_filter_witness :
    ¬ ((3 : Int) ≤ 3 ∧ nalByte sampleNal 3 = 0x4e ∧ nalByte sampleNal (3 + 2) = 5) :=
  c2_sei_filter.1 sampleReady [] sampleNal 3 3 sampleDrained errSuccess sampleRun

/-- C3: every NAL returned by `x265_get_compressed_data` is its payload with
the leading start code removed: the data pointer skips all leading zero bytes
plus exactly one further byte, the size is the number of remaining bytes, and
the remaining bytes are returned unmodified. -/
theorem c3_start_code_removal :
    ∀ (s : x265_encoder_struct) (resps : List EncodeResp) (n : Nal) (off : Nat)
      (sz : Int) (s' : x265_encoder_struct) (e : heif_error),
      x265_get_compressed_data s resps = some (.nal n off sz, s', e) →
      n.wf → (∃ x ∈ n.payload, x ≠ 0) →
      off = leadingZeroCount n.payload + 1 ∧
      (∀ j, j < off - 1 → n.payload.getD j 1 = 0) ∧
      sz = ((n.payload.drop off).length : Int) ∧
      (∀ i, i < (n.payload.drop off).length →
        nalByte n (off + i) = (n.payload.drop off).getD i 0) := by
  intro s resps n off sz s' e h hwf hnz
  obtain ⟨hoff, hsz, _⟩ := gcdLoop_output_spec (get_compressed_nal h)
  rw [skipStartCode_spec hwf hnz] at hoff hsz
  have hz := leadingZeroCount_lt _ hnz
  have hoff' : off = leadingZeroCount n.payload + 1 := hoff
  have hsz' : sz = (n.payload.length : Int) - (leadingZeroCount n.payload + 1) := hsz
  refine ⟨hoff', ?_, ?_, ?_⟩
  · intro j hj
    apply leadingZeroCount_zeros
    omega
  · rw [hsz', List.length_drop, hoff']
    omega
  · intro i hi
    have hlt : off + i < n.payload.length := by
      rw [List.length_drop] at hi
      omega
    rw [nalByte_lt hlt 0, List.getD_eq_getElem?_getD, List.getD_eq_getElem?_getD,
      List.getElem?_drop]

/-- Witness for C3 at the concrete returned NAL of `sampleRun`: the data
pointer offset 3 is the leading-zero count 2 plus one. -/
theorem c3_start_code_removal_witness :
    (3 : Nat) = leadingZeroCount sampleNal.payload + 1 :=
  (c3_start_code_removal sampleReady [] sampleNal 3 3 sampleDrained errSuccess
    sampleRun rfl (by decide)).1

/-- Counterexample to C6 as stated: starting from `sampleDrained`, which
satisfies `nal_output_counter ≤ num_nals` (1 ≤ 1), a single
`x265_get_compressed_data` call that hits end of stream — the flush call
returns 0 and, as real x265 does via `*pi_nal`, writes an empty batch through
the out-parameters — ends in a state with
`nal_output_counter = 1 > 0 = num_nals`: neither flush path resets the
cursor, so the operation does not preserve the invariant. -/
theorem c6_state_counterexample :
    sampleDrained.nal_output_counter ≤ sampleDrained.num_nals ∧
    x265_get_compressed_data sampleDrained [⟨0, []⟩] =
      some (.eos, ⟨sampleParams, some 0, [], 0, 1⟩, errSuccess) ∧
    ¬ ((⟨sampleParams, some 0, [], 0, 1⟩ : x265_encoder_struct).nal_output_counter ≤
        (⟨sampleParams, some 0, [], 0, 1⟩ : x265_encoder_struct).num_nals) := by
  refine ⟨by decide, ?_, by decide⟩
  have hscan1 : scanBatch sampleDrained.nals sampleDrained.num_nals
      sampleDrained.nal_output_counter = .exhausted 1 :=
    scanBatch_stop _ _ _ (by decide)
  have h1 := gcdLoop_flush hscan1 ⟨0, []⟩ []
  rw [if_pos (by norm_num)] at h1
  show (gcdLoop sampleDrained [⟨0, []⟩]).map
      (fun p : GCDOut × x265_encoder_struct => (p.1, p.2, errSuccess)) =
    some (.eos, ⟨sampleParams, some 0, [], 0, 1⟩, errSuccess)
  rw [h1]
  rfl

/-- C6 as amended: the adapter state is the five-field record;
`x265_new_encoder` establishes `num_nals = 0` and `nal_output_counter = 0`,
`x265_encode_image` resets `nal_output_counter` to 0, the batch scan
increments the cursor only while it is strictly below `num_nals`, and
`x265_get_compressed_data` preserves `nal_output_counter ≤ num_nals`
provided every flush response carries at least as many NALs as the batch
count current at that flush (`flushOk`); without that proviso the invariant
is lost — neither flush path resets the cursor, and in particular the
realistic end-of-stream flush (result 0, empty batch) breaks it (see the
counterexample). -/
theorem c6_state_invariant :
    (∀ d, (x265_new_encoder d).1.num_nals = 0 ∧
      (x265_new_encoder d).1.nal_output_counter = 0) ∧
    (∀ s img id r, (x265_encode_image s img id r).1.nal_output_counter = 0) ∧
    (∀ (nals : List Nal) (num c : Nat), c ≤ num →
      (scanBatch nals num c).counter ≤ num) ∧
    (∀ (s : x265_encoder_struct) (resps : List EncodeResp) (o : GCDOut)
        (s' : x265_encoder_struct) (e : heif_error),
      s.nal_output_counter ≤ s.num_nals → flushOk s.num_nals resps →
      x265_get_compressed_data s resps = some (o, s', e) →
      s'.nal_output_counter ≤ s'.num_nals) := by
  refine ⟨fun d => ⟨rfl, rfl⟩, fun s img id r => rfl,
    fun nals num c hc => (scanBatch_counter nals num c hc).1,
    fun s resps o s' e hc hok h => ?_⟩
  unfold x265_get_compressed_data at h
  cases henc : s.encoder with
  | none =>
    rw [henc] at h
    simp only [Option.some.injEq, Prod.mk.injEq] at h
    obtain ⟨_, h2, _⟩ := h
    rw [← h2]
    exact hc
  | some i =>
    rw [henc, Option.map_eq_some'] at h
    obtain ⟨⟨o0, s0⟩, hg, heq⟩ := h
    simp only [Prod.mk.injEq] at heq
    obtain ⟨h1, h2, h3⟩ := heq
    rw [← h2]
    exact gcdLoop_inv hc hok hg

/-- Witness for C6 (amended) at a concrete pull from `sampleReady`. -/
theorem c6_state_invariant_witness :
    sampleDrained.nal_output_counter ≤ sampleDrained.num_nals :=
  c6_state_invariant.2.2.2 sampleReady [] (.nal sampleNal 3 3) sampleDrained
    errSuccess (by decide) trivial sampleRun

/-- C7: the adapter keeps at most one wrapped encoder instance open at any
time: `x265_encode_image` closes the previously open instance (when one
exists) before opening the new one, `x265_free_encoder` closes the open
instance exactly when one exists and always frees the parameter handle, and
along any lifetime (`x265_new_encoder`, any operations, `x265_free_encoder`)
every moment of the library-call trace has at most one instance open. -/
theorem c7_handle_lifecycle :
    (∀ s : x265_encoder_struct,
      LibEvent.param_free ∈ x265_free_encoder s ∧
      ∀ i, (LibEvent.encoder_close i ∈ x265_free_encoder s ↔ s.encoder = some i)) ∧
    (∀ (s : x265_encoder_struct) (img : heif_image_model) (id : Nat)
        (r : EncodeResp) (i : Nat), s.encoder = some i →
      (x265_encode_image s img id r).2.1 =
        [.picture_alloc, .encoder_close i, .encoder_open id,
         .encoder_encode, .picture_free]) ∧
    (∀ (s : x265_encoder_struct) (img : heif_image_model) (id : Nat)
        (r : EncodeResp), s.encoder = none →
      (x265_encode_image s img id r).2.1 =
        [.picture_alloc, .encoder_open id, .encoder_encode, .picture_free]) ∧
    (∀ (libDefaults : x265_param_model) (ops : List AdapterOp) (k : Nat),
      openCount ((lifeTrace libDefaults ops).take k) ≤ 1) := by
  refine ⟨?_, ?_, ?_, lifeTrace_goodTrace⟩
  · intro s
    unfold x265_free_encoder
    cases henc : s.encoder with
    | none =>
      refine ⟨by simp, fun i => ?_⟩
      simp
    | some j =>
      refine ⟨by simp, fun i => ?_⟩
      simp [eq_comm]
  · intro s img id r i henc
    simp [x265_encode_image, henc]
  · intro s img id r henc
    simp [x265_encode_image, henc]

/-- Witness for C7 at a concrete re-encode: the old instance 0 is closed
before the new instance 1 is opened. -/
theorem c7_handle_lifecycle_witness :
    (x265_encode_image sampleReady ⟨64, 64⟩ 1 ⟨1, []⟩).2.1 =
      [.picture_alloc, .encoder_close 0, .encoder_open 1,
       .encoder_encode, .picture_free] :=
  c7_handle_lifecycle.2.1 sampleReady ⟨64, 64⟩ 1 ⟨1, []⟩ 0 rfl

end X265Plugin
